import Mathlib

/-!
# Verification of the sales-analytics aggregation and accuracy engine

Shallow embedding of the daily aggregation, series alignment, accuracy
metric, promotion impact and time-filter logic of the repository
(`services/local_data.py`, `services/data_service.py`,
`utils/sales_calculations.py`, `utils/data_queries.py`,
`utils/data_loader.py`, and the Streamlit pages), together with proofs
and refutations of the specified properties.

Dates in the daily pipeline are modelled as integer day keys (rata die
day numbers); monetary amounts are modelled as rationals.  `None` /
`NULL` values of the source are modelled as `Option.none`; the
floating-point `NaN` returned by `pandas.Series.corr` for a constant
series is likewise modelled as `Option.none`.
-/

/-- One transaction-level record, as consumed by the query layer.
`day` is the date key (a rata die day number), `amount` is `SalesAmount`,
`promoKey` is `PromotionKey` (`1` means "no promotion"), `salesKey` is
`SalesKey`. -/
structure SalesRecord where
  day : ℤ
  amount : ℚ
  quantity : ℤ
  promoKey : ℤ
  promotionName : String
  discount : ℚ
  region : String
  continent : String
  salesKey : ℤ
deriving DecidableEq

/-- `abs` on rationals, written with an explicit sign test so that it
evaluates by kernel reduction. -/
def ratAbs (q : ℚ) : ℚ :=
  if q < 0 then -q else q

theorem ratAbs_eq_abs (q : ℚ) : ratAbs q = |q| := by
  unfold ratAbs
  rcases lt_or_le q 0 with h | h
  · simp [h, abs_of_neg h]
  · simp [not_lt.mpr h, abs_of_nonneg h]

/-- `if not end_date: end_date = start_date + timedelta(days=30)` —
the default end of every fetch-style query window. -/
def resolveEnd (startDate : ℤ) (endDate : Option ℤ) : ℤ :=
  endDate.getD (startDate + 30)

/-- `(df['date'].dt.date >= start_date) & (df['date'].dt.date <= end_date)` —
the inclusive date-range mask. -/
def inRange (s e : ℤ) (r : SalesRecord) : Bool :=
  decide (s ≤ r.day) && decide (r.day ≤ e)

/-- The records selected by the range mask. -/
def filterRange (rs : List SalesRecord) (s e : ℤ) : List SalesRecord :=
  rs.filter (inRange s e)

/-- Sum of `SalesAmount` over the records of one date (`groupby` + `sum`). -/
def sumOn (rs : List SalesRecord) (d : ℤ) : ℚ :=
  ((rs.filter (fun r => r.day = d)).map SalesRecord.amount).sum

/-- Number of records of one date (`groupby` + `count`). -/
def countOn (rs : List SalesRecord) (d : ℤ) : ℕ :=
  (rs.filter (fun r => r.day = d)).length

/-- The distinct dates of a record list in ascending order — the index
produced by `groupby(df['date'].dt.date)`. -/
def salesDates (rs : List SalesRecord) : List ℤ :=
  ((rs.map SalesRecord.day).dedup).insertionSort (· ≤ ·)

/-- Daily totals: one `(date, summed amount)` pair per distinct date,
in ascending date order. -/
def dailyTotals (rs : List SalesRecord) : List (ℤ × ℚ) :=
  (salesDates rs).map (fun d => (d, sumOn rs d))

/-- One row of the `get_actuals_vs_predictions` comparison frame:
`date, actual_sales, actual_records, predicted_sales, predicted_records,
absolute_error, percentage_error`.  A missing side is zero-filled
(`fillna(0)` / `COALESCE(..., 0)`); `percentage_error` is `None` unless
the actual value is strictly positive. -/
structure ComparisonRow where
  date : ℤ
  actual_sales : ℚ
  actual_records : ℕ
  predicted_sales : ℚ
  predicted_records : ℕ
  absolute_error : ℚ
  percentage_error : Option ℚ
deriving DecidableEq

/-- `abs(actual - predicted) / actual * 100 if actual > 0 else None`. -/
def percentageError (a p : ℚ) : Option ℚ :=
  if 0 < a then some (ratAbs (a - p) / a * 100) else none

/-- `pd.merge(actuals, predictions, on='date', how='outer').fillna(0)`
followed by the error columns, over two already-filtered record lists:
one row per date present on either side, ascending. -/
def alignDaily (fa fp : List SalesRecord) : List ComparisonRow :=
  (((fa.map SalesRecord.day ++ fp.map SalesRecord.day).dedup).insertionSort
      (· ≤ ·)).map
    (fun d =>
      let a := sumOn fa d
      let p := sumOn fp d
      { date := d
        actual_sales := a
        actual_records := countOn fa d
        predicted_sales := p
        predicted_records := countOn fp d
        absolute_error := ratAbs (a - p)
        percentage_error := percentageError a p })

/-- `get_actuals_vs_predictions(start_date, end_date)` of
`services/local_data.py` (the `FULL OUTER JOIN` query of
`services/data_service.py` computes the same rows): filter both record
streams to the window, group by date, outer-join with zero fill, and
attach the error columns. -/
def get_actuals_vs_predictions (actuals predictions : List SalesRecord)
    (startDate : ℤ) (endDate : Option ℤ) : List ComparisonRow :=
  let e := resolveEnd startDate endDate
  alignDaily (filterRange actuals startDate e) (filterRange predictions startDate e)

/-- The dates used by `get_prediction_accuracy_metrics`: the inner merge
`pd.merge(actuals_daily, predictions_daily, on='date')` keeps exactly the
dates present in both grouped series, in ascending (left-key) order. -/
def sharedDates (fa fp : List SalesRecord) : List ℤ :=
  (salesDates fa).filter (fun d => d ∈ salesDates fp)

/-- The accuracy report of `get_prediction_accuracy_metrics`:
`total_predictions, mae, rmse, mape, correlation`.  `rmse` is a real
number because the source takes a square root; `correlation` is `none`
where `pandas.Series.corr` returns `NaN` (zero variance on either side),
and `some 0` on the source's explicit no-shared-data branch. -/
structure AccuracyMetrics where
  total_predictions : ℕ
  mae : ℚ
  rmse : ℝ
  mape : ℚ
  correlation : Option ℝ

/-- The metric computations of `get_prediction_accuracy_metrics` over
the two columns of the merged frame (`SalesAmount_actual`,
`SalesAmount_pred`, one entry per shared date).  Mirrors:
`mae = abs(a - p).mean()`, `rmse = ((a - p) ** 2).mean() ** 0.5`,
`mape = (abs(a - p) / a).mean() * 100`, `correlation = a.corr(p)`
(`none` where `corr` returns `NaN`), with the source's explicit all-zero
dictionary when the merge is empty. -/
noncomputable def metricsFromSeries (avals pvals : List ℚ) :
    AccuracyMetrics :=
  if avals = [] then
    { total_predictions := 0, mae := 0, rmse := 0, mape := 0, correlation := some 0 }
  else
    let n : ℚ := (avals.length : ℚ)
    let abar := avals.sum / n
    let pbar := pvals.sum / n
    let ssA := (avals.map (fun x => (x - abar) ^ 2)).sum
    let ssP := (pvals.map (fun x => (x - pbar) ^ 2)).sum
    let cov := ((avals.zip pvals).map (fun q => (q.1 - abar) * (q.2 - pbar))).sum
    { total_predictions := avals.length
      mae := ((avals.zip pvals).map (fun q => ratAbs (q.1 - q.2))).sum / n
      rmse := Real.sqrt ((((avals.zip pvals).map (fun q => (q.1 - q.2) ^ 2)).sum / n : ℚ))
      mape := ((avals.zip pvals).map (fun q => ratAbs (q.1 - q.2) / q.1)).sum / n * 100
      correlation :=
        if ssA = 0 ∨ ssP = 0 then none
        else some ((cov : ℝ) / (Real.sqrt (ssA : ℚ) * Real.sqrt (ssP : ℚ))) }

/-- `get_prediction_accuracy_metrics(start_date, end_date)` of
`services/local_data.py`: filter both record streams to the window,
group by date, inner-merge on date, and compute the error statistics
over the merged columns. -/
noncomputable def get_prediction_accuracy_metrics
    (actuals predictions : List SalesRecord)
    (startDate : ℤ) (endDate : Option ℤ) : AccuracyMetrics :=
  let e := resolveEnd startDate endDate
  let fa := filterRange actuals startDate e
  let fp := filterRange predictions startDate e
  metricsFromSeries ((sharedDates fa fp).map (sumOn fa))
    ((sharedDates fa fp).map (sumOn fp))

/-- The MAPE the specification prescribes for an aligned series of
`(actual, predicted)` pairs: the mean of `|actual - predicted| / actual`
restricted to pairs with `actual > 0`, scaled by 100, and an explicit
undefined marker when no pair has a strictly positive actual. -/
def mapeSpec (rows : List (ℚ × ℚ)) : Option ℚ :=
  let pos := rows.filter (fun r => 0 < r.1)
  if pos = [] then none
  else some ((pos.map (fun r => ratAbs (r.1 - r.2) / r.1)).sum / (pos.length : ℚ) * 100)

/-- The shared-date `(actual, predicted)` pairs fed into the accuracy
statistics, for stating claims about them. -/
def sharedPairs (actuals predictions : List SalesRecord)
    (startDate : ℤ) (endDate : Option ℤ) : List (ℚ × ℚ) :=
  let e := resolveEnd startDate endDate
  let fa := filterRange actuals startDate e
  let fp := filterRange predictions startDate e
  (sharedDates fa fp).map (fun d => (sumOn fa d, sumOn fp d))

/-- One row of `get_daily_sales` / `get_daily_predictions`:
`date, sum, count, mean` of `SalesAmount` per date. -/
structure DailyRow where
  date : ℤ
  total_sales : ℚ
  total_records : ℕ
  average_value : ℚ
deriving DecidableEq

/-- `get_daily_sales(start_date, end_date)` of `services/local_data.py`
(and the equivalent `GROUP BY date` query of `services/data_service.py`):
per-date sum, count and mean over the window. -/
def get_daily_sales (rs : List SalesRecord) (startDate : ℤ)
    (endDate : Option ℤ) : List DailyRow :=
  let f := filterRange rs startDate (resolveEnd startDate endDate)
  (salesDates f).map (fun d =>
    { date := d
      total_sales := sumOn f d
      total_records := countOn f d
      average_value := sumOn f d / (countOn f d : ℚ) })

/-- `get_daily_predictions(start_date, end_date)`: identical aggregation
over the prediction stream (columns renamed in the source). -/
def get_daily_predictions (rs : List SalesRecord) (startDate : ℤ)
    (endDate : Option ℤ) : List DailyRow :=
  let f := filterRange rs startDate (resolveEnd startDate endDate)
  (salesDates f).map (fun d =>
    { date := d
      total_sales := sumOn f d
      total_records := countOn f d
      average_value := sumOn f d / (countOn f d : ℚ) })

/-- One row of `get_sales_by_region`: per `(region, continent)` group,
sum, mean and count of `SalesAmount`. -/
structure RegionRow where
  region : String
  continent : String
  total_sales : ℚ
  avg_sales : ℚ
  total_records : ℕ
deriving DecidableEq

/-- The records of one `(region, continent)` group. -/
def regionGroup (rs : List SalesRecord) (k : String × String) :
    List SalesRecord :=
  rs.filter (fun r => r.region = k.1 ∧ r.continent = k.2)

/-- `get_sales_by_region(start_date, end_date)` of
`services/local_data.py`: group the windowed records by
`(RegionCountryName, ContinentName)` and reduce each group. -/
def get_sales_by_region (rs : List SalesRecord) (startDate : ℤ)
    (endDate : Option ℤ) : List RegionRow :=
  let f := filterRange rs startDate (resolveEnd startDate endDate)
  let keys := ((f.map (fun r => (r.region, r.continent))).dedup).insertionSort
    (fun a b => a.1 < b.1 ∨ (a.1 = b.1 ∧ a.2 ≤ b.2))
  keys.map (fun k =>
    let g := regionGroup f k
    { region := k.1
      continent := k.2
      total_sales := (g.map SalesRecord.amount).sum
      avg_sales := (g.map SalesRecord.amount).sum / (g.length : ℚ)
      total_records := g.length })

/-- One output row of `get_promotion_impact` of `utils/data_queries.py`:
per promotion partition (`PromotionKey != 1`), total and average of
`SalesAmount` and `SalesQuantity`, and the distinct-`SalesKey` count. -/
structure PromoRow where
  has_promotion : Bool
  total_sales : ℚ
  avg_sale_value : ℚ
  total_volume : ℤ
  avg_volume : ℚ
  transaction_count : ℕ
deriving DecidableEq

/-- The records of one promotion partition:
`CASE WHEN PromotionKey != 1 THEN TRUE ELSE FALSE END = b`. -/
def promoPartition (rs : List SalesRecord) (b : Bool) : List SalesRecord :=
  rs.filter (fun r => (decide (r.promoKey ≠ 1)) = b)

/-- The aggregate row of one promotion partition. -/
def promoRowOf (rs : List SalesRecord) (b : Bool) : PromoRow :=
  let g := promoPartition rs b
  { has_promotion := b
    total_sales := (g.map SalesRecord.amount).sum
    avg_sale_value := (g.map SalesRecord.amount).sum / (g.length : ℚ)
    total_volume := (g.map SalesRecord.quantity).sum
    avg_volume := ((g.map SalesRecord.quantity).sum : ℚ) / (g.length : ℚ)
    transaction_count := ((g.map SalesRecord.salesKey).dedup).length }

/-- `get_promotion_impact(start_date, end_date)` of
`utils/data_queries.py`: `GROUP BY has_promotion` over the windowed
records.  SQL `GROUP BY` emits a row only for groups that contain at
least one record, so an empty partition is silently absent. -/
def get_promotion_impact (rs : List SalesRecord) (startDate endDate : ℤ) :
    List PromoRow :=
  let f := rs.filter (inRange startDate endDate)
  ([false, true].filter (fun b => ¬ promoPartition f b = [])).map (promoRowOf f)

/-- The outcome the specification prescribes for the promotion-impact
analysis: a distinct `insufficientPartitionData` signal whenever one of
the two promotion partitions has zero records, and partition rows
otherwise. -/
inductive PromotionImpactOutcome where
  | insufficientPartitionData
  | impact (rows : List PromoRow)
deriving DecidableEq

/-- The behavior the specification prescribes for `get_promotion_impact`
(`InsufficientPartitionData` when either partition is empty). -/
def promotionImpactSpec (rs : List SalesRecord) (startDate endDate : ℤ) :
    PromotionImpactOutcome :=
  let f := rs.filter (inRange startDate endDate)
  if promoPartition f true = [] ∨ promoPartition f false = [] then
    PromotionImpactOutcome.insufficientPartitionData
  else
    PromotionImpactOutcome.impact [promoRowOf f false, promoRowOf f true]

/-- A proleptic Gregorian calendar date. -/
structure Date where
  year : ℤ
  month : ℤ
  day : ℤ
deriving DecidableEq

/-- Gregorian leap-year predicate. -/
def isLeap (y : ℤ) : Bool :=
  decide (y % 4 = 0) && (decide (y % 100 ≠ 0) || decide (y % 400 = 0))

/-- Days in a Gregorian month. -/
def daysInMonth (y m : ℤ) : ℤ :=
  if m = 2 then (if isLeap y then 29 else 28)
  else if m = 4 ∨ m = 6 ∨ m = 9 ∨ m = 11 then 30
  else 31

/-- Days in a Gregorian year. -/
def daysInYear (y : ℤ) : ℤ :=
  if isLeap y then 366 else 365

/-- Ordinal day within the year (1 = Jan 1). -/
def dayOfYear (dt : Date) : ℤ :=
  (((List.range (dt.month - 1).toNat).map
      (fun i => daysInMonth dt.year ((i : ℤ) + 1))).sum) + dt.day

/-- Days in the proleptic Gregorian calendar strictly before year `y`
(for `y ≥ 1`). -/
def daysBeforeYear (y : ℤ) : ℤ :=
  365 * (y - 1) + (y - 1) / 4 - (y - 1) / 100 + (y - 1) / 400

/-- Rata die day number: `rdOf ⟨1, 1, 1⟩ = 1`, which was a Monday. -/
def rdOf (dt : Date) : ℤ :=
  daysBeforeYear dt.year + dayOfYear dt

/-- ISO weekday, `1 = Monday .. 7 = Sunday` — `date.isocalendar()[2]`. -/
def isoWeekday (dt : Date) : ℤ :=
  (rdOf dt - 1) % 7 + 1

/-- Number of ISO weeks in ISO year `y` (52 or 53): 53 exactly when
Jan 1 falls on a Thursday, or on a Wednesday in a leap year. -/
def isoWeeksInYear (y : ℤ) : ℤ :=
  if isoWeekday ⟨y, 1, 1⟩ = 4 ∨ (isLeap y ∧ isoWeekday ⟨y, 1, 1⟩ = 3) then 53
  else 52

/-- `date.isocalendar()`'s `(iso year, iso week number)` pair, computed
from the ordinal day and the weekday. -/
def isoWeekOf (dt : Date) : ℤ × ℤ :=
  let w := (dayOfYear dt - isoWeekday dt + 10) / 7
  if w < 1 then (dt.year - 1, isoWeeksInYear (dt.year - 1))
  else if isoWeeksInYear dt.year < w then (dt.year + 1, 1)
  else (dt.year, w)

/-- The ISO week-year of a date — `date.isocalendar()[0]`. -/
def isoWeekYear (dt : Date) : ℤ :=
  (isoWeekOf dt).1

/-- The ISO week number of a date — `date.isocalendar()[1]`, the value
the source stores as the `week` column. -/
def isoWeekNum (dt : Date) : ℤ :=
  (isoWeekOf dt).2

/-- Recover `(month, day)` from an ordinal day of year `y` by walking
the months (fuel 12 suffices for a valid ordinal). -/
def monthDayFromOrdinal (y : ℤ) : ℕ → ℤ → ℤ → ℤ × ℤ
  | 0, m, d => (m, d)
  | fuel + 1, m, d =>
    if daysInMonth y m < d then monthDayFromOrdinal y fuel (m + 1) (d - daysInMonth y m)
    else (m, d)

/-- The date with ordinal day `doy` in year `y`. -/
def dateFromOrdinal (y doy : ℤ) : Date :=
  let p := monthDayFromOrdinal y 12 1 doy
  ⟨y, p.1, p.2⟩

/-- The Monday that starts ISO week `w` of ISO year `iy`. -/
def isoWeekStartDate (iy w : ℤ) : Date :=
  let ord := 4 - (isoWeekday ⟨iy, 1, 4⟩ - 1) + 7 * (w - 1)
  if ord ≤ 0 then dateFromOrdinal (iy - 1) (ord + daysInYear (iy - 1))
  else if daysInYear iy < ord then dateFromOrdinal (iy + 1) (ord - daysInYear iy)
  else dateFromOrdinal iy ord

/-- Validity of a Gregorian date (positive proleptic years). -/
def validDate (dt : Date) : Prop :=
  1 ≤ dt.year ∧ 1 ≤ dt.month ∧ dt.month ≤ 12 ∧ 1 ≤ dt.day ∧
    dt.day ≤ daysInMonth dt.year dt.month

instance (dt : Date) : Decidable (validDate dt) := by
  unfold validDate; infer_instance

/-- The time-bucket columns attached to every generated row of
`load_geography_data` in `utils/data_loader.py`:
`'year': date.year, 'month': date.month,
'quarter': (date.month-1)//3 + 1, 'week': date.isocalendar()[1]`. -/
structure GeoBucket where
  year : ℤ
  month : ℤ
  quarter : ℤ
  week : ℤ
deriving DecidableEq

/-- The bucket columns computed for a date by `load_geography_data`. -/
def geoBucketOf (dt : Date) : GeoBucket :=
  { year := dt.year
    month := dt.month
    quarter := (dt.month - 1) / 3 + 1
    week := isoWeekNum dt }

/-- `get_available_weeks(df, year, month)` of
`utils/sales_calculations.py`: filter the date column by calendar year
and calendar month when given, then list the distinct ISO week numbers
in ascending order. -/
def get_available_weeks (dates : List Date) (year month : Option ℤ) :
    List ℤ :=
  let l1 : List Date := match year with
    | some y => dates.filter (fun dt => dt.year = y)
    | none => dates
  let l2 : List Date := match month with
    | some m => l1.filter (fun dt => dt.month = m)
    | none => l1
  ((l2.map isoWeekNum).dedup).insertionSort (· ≤ ·)

/-- The month/week selection state of the daily-view filters
(`none` models "All Months" / "All Weeks"). -/
structure FilterState where
  month : Option ℤ
  week : Option ℤ
deriving DecidableEq

/-- `get_month_for_week(df, week_num)` of `pages/2_🌍_Geography.py`:
the month of the **first** row of the data whose ISO week number equals
the selected week, and "All Months" when the week is "All Weeks" or no
row matches. -/
def get_month_for_week (dates : List Date) (week : Option ℤ) : Option ℤ :=
  match week with
  | none => none
  | some w =>
    match (dates.filter (fun dt => isoWeekNum dt = w)).head? with
    | some dt => some dt.month
    | none => none

/-- `on_week_change` of `pages/2_🌍_Geography.py` (Daily View): when a
concrete week is selected, the month selection is overwritten with
`get_month_for_week`; selecting "All Weeks" leaves the month alone. -/
def on_week_change (dates : List Date) (st : FilterState)
    (week : Option ℤ) : FilterState :=
  match week with
  | none => { st with week := none }
  | some w => { month := get_month_for_week dates (some w), week := some w }

/-- The week selection step of the Daily View of
`pages/1_📈_Actuals_vs_Predictions.py` (lines 473–497): the chosen week
is recorded and the month selection is left untouched — that page has
no back-propagation. -/
def dailyViewSelectWeek (st : FilterState) (week : Option ℤ) : FilterState :=
  { st with week := week }

/-! ## Helper lemmas about the daily aggregation -/

theorem mem_salesDates {rs : List SalesRecord} {d : ℤ} :
    d ∈ salesDates rs ↔ ∃ r ∈ rs, r.day = d := by
  unfold salesDates
  rw [List.mem_insertionSort, List.mem_dedup, List.mem_map]

theorem nodup_salesDates (rs : List SalesRecord) : (salesDates rs).Nodup :=
  ((rs.map SalesRecord.day).nodup_dedup).perm
    (List.perm_insertionSort _ _).symm

theorem sorted_salesDates (rs : List SalesRecord) :
    (salesDates rs).Sorted (· ≤ ·) :=
  List.sorted_insertionSort _ _

theorem sumOn_eq_zero {rs : List SalesRecord} {d : ℤ}
    (h : ∀ r ∈ rs, r.day ≠ d) : sumOn rs d = 0 := by
  unfold sumOn
  have : rs.filter (fun r => r.day = d) = [] := by
    rw [List.filter_eq_nil_iff]
    intro r hr
    simpa using h r hr
  simp [this]

theorem countOn_eq_zero {rs : List SalesRecord} {d : ℤ}
    (h : ∀ r ∈ rs, r.day ≠ d) : countOn rs d = 0 := by
  unfold countOn
  have : rs.filter (fun r => r.day = d) = [] := by
    rw [List.filter_eq_nil_iff]
    intro r hr
    simpa using h r hr
  simp [this]

theorem sumOn_append (l l' : List SalesRecord) (d : ℤ) :
    sumOn (l ++ l') d = sumOn l d + sumOn l' d := by
  unfold sumOn
  rw [List.filter_append, List.map_append, List.sum_append]

/-- The date column of the aligned comparison is the sorted,
duplicate-free union of the two sides' dates. -/
theorem alignDaily_map_date (fa fp : List SalesRecord) :
    (alignDaily fa fp).map ComparisonRow.date =
      ((fa.map SalesRecord.day ++ fp.map SalesRecord.day).dedup).insertionSort
        (· ≤ ·) := by
  unfold alignDaily
  rw [List.map_map]
  exact (List.map_congr_left fun a _ => rfl).trans (List.map_id _)

theorem mem_alignDaily_dates {fa fp : List SalesRecord} {d : ℤ} :
    d ∈ (alignDaily fa fp).map ComparisonRow.date ↔
      (∃ r ∈ fa, r.day = d) ∨ ∃ r ∈ fp, r.day = d := by
  rw [alignDaily_map_date, List.mem_insertionSort, List.mem_dedup,
    List.mem_append, List.mem_map, List.mem_map]

/-! ## C3: alignment totality -/

/-- **C3.** The aligned comparison has exactly one row per date in the
union of the dates present on either side of the window: its date column
has no duplicates, a date appears in it iff some windowed actual or
predicted record carries it, and its length is the cardinality of the
union of the two date sets. -/
theorem alignment_totality (A P : List SalesRecord) (s : ℤ) (e? : Option ℤ) :
    ((get_actuals_vs_predictions A P s e?).map ComparisonRow.date).Nodup ∧
    (∀ d : ℤ,
      d ∈ (get_actuals_vs_predictions A P s e?).map ComparisonRow.date ↔
        (∃ r ∈ filterRange A s (resolveEnd s e?), r.day = d) ∨
        (∃ r ∈ filterRange P s (resolveEnd s e?), r.day = d)) ∧
    (get_actuals_vs_predictions A P s e?).length =
      (((filterRange A s (resolveEnd s e?)).map SalesRecord.day).toFinset ∪
        ((filterRange P s (resolveEnd s e?)).map SalesRecord.day).toFinset).card := by
  have hrw : get_actuals_vs_predictions A P s e? =
      alignDaily (filterRange A s (resolveEnd s e?))
        (filterRange P s (resolveEnd s e?)) := rfl
  rw [hrw]
  refine ⟨?_, fun d => mem_alignDaily_dates, ?_⟩
  · rw [alignDaily_map_date]
    exact (List.nodup_dedup _).perm (List.perm_insertionSort _ _).symm
  · unfold alignDaily
    rw [List.length_map, List.length_insertionSort, ← List.card_toFinset,
      List.toFinset_append]

/-! ## C1: zero-fill vs undefined percentage error -/

/-- **C1.** In every aligned comparison row, a side with no windowed
record on the row's date is reported as `0` (value and record count),
`absolute_error` is `|actual - predicted|` of the zero-filled values,
and `percentage_error` is `|actual - predicted| / actual * 100` exactly
when the actual value is strictly positive and the explicit undefined
marker `none` otherwise — never `0` by substitution and never an
infinity. -/
theorem alignment_zero_fill (A P : List SalesRecord) (s : ℤ) (e? : Option ℤ)
    (r : ComparisonRow) (hr : r ∈ get_actuals_vs_predictions A P s e?) :
    ((∀ rec ∈ filterRange A s (resolveEnd s e?), rec.day ≠ r.date) →
      r.actual_sales = 0 ∧ r.actual_records = 0) ∧
    ((∀ rec ∈ filterRange P s (resolveEnd s e?), rec.day ≠ r.date) →
      r.predicted_sales = 0 ∧ r.predicted_records = 0) ∧
    r.absolute_error = |r.actual_sales - r.predicted_sales| ∧
    (0 < r.actual_sales →
      r.percentage_error =
        some (|r.actual_sales - r.predicted_sales| / r.actual_sales * 100)) ∧
    (¬ 0 < r.actual_sales → r.percentage_error = none) := by
  rw [show get_actuals_vs_predictions A P s e? =
      alignDaily (filterRange A s (resolveEnd s e?))
        (filterRange P s (resolveEnd s e?)) from rfl, alignDaily] at hr
  obtain ⟨d, _, rfl⟩ := List.mem_map.mp hr
  refine ⟨fun h => ⟨sumOn_eq_zero h, countOn_eq_zero h⟩,
    fun h => ⟨sumOn_eq_zero h, countOn_eq_zero h⟩, ?_, ?_, ?_⟩
  · exact ratAbs_eq_abs _
  · intro hpos
    show percentageError _ _ = _
    rw [percentageError, if_pos hpos, ratAbs_eq_abs]
  · intro hpos
    show percentageError _ _ = _
    rw [percentageError, if_neg hpos]

/-- Witness for C1 at the claim's own instance: with no actual records
and a single predicted record of `5`, the aligned row zero-fills the
actual side and has `absoluteError = 5` with `percentageError` the
explicit undefined marker. -/
theorem alignment_zero_fill_witness :
    (⟨0, 0, 0, 5, 1, 5, none⟩ : ComparisonRow) ∈
      get_actuals_vs_predictions []
        [⟨0, 5, 1, 1, "NoPromo", 0, "R", "C", 1⟩] 0 none ∧
    ((0 : ℚ) = 0 ∧ (0 : ℕ) = 0) ∧ (5 : ℚ) = |(0 : ℚ) - 5| ∧
    (none : Option ℚ) = none := by
  have hmem : (⟨0, 0, 0, 5, 1, 5, none⟩ : ComparisonRow) ∈
      get_actuals_vs_predictions []
        [⟨0, 5, 1, 1, "NoPromo", 0, "R", "C", 1⟩] 0 none := by
    simp +decide [get_actuals_vs_predictions, alignDaily, filterRange,
      inRange, resolveEnd, sumOn, countOn, percentageError, ratAbs,
      List.insertionSort, List.orderedInsert]
  have h := alignment_zero_fill []
    [⟨0, 5, 1, 1, "NoPromo", 0, "R", "C", 1⟩] 0 none _ hmem
  exact ⟨hmem, h.1 (by intro rec hrec; simp [filterRange] at hrec),
    h.2.2.1, h.2.2.2.2 (by norm_num)⟩

/-! ## C2: accuracy statistics over shared dates only -/

theorem mem_sharedDates {fa fp : List SalesRecord} {d : ℤ} :
    d ∈ sharedDates fa fp ↔
      (∃ r ∈ fa, r.day = d) ∧ ∃ r ∈ fp, r.day = d := by
  unfold sharedDates
  rw [List.mem_filter]
  simp [mem_salesDates]

theorem nodup_sharedDates (fa fp : List SalesRecord) :
    (sharedDates fa fp).Nodup :=
  (nodup_salesDates fa).filter _

theorem sorted_sharedDates (fa fp : List SalesRecord) :
    (sharedDates fa fp).Sorted (· ≤ ·) :=
  (sorted_salesDates fa).filter _

theorem toFinset_sharedDates (fa fp : List SalesRecord) :
    (sharedDates fa fp).toFinset =
      (fa.map SalesRecord.day).toFinset ∩ (fp.map SalesRecord.day).toFinset := by
  ext d
  simp only [List.mem_toFinset, Finset.mem_inter, mem_sharedDates,
    List.mem_map]

theorem exists_day_append {l l' : List SalesRecord} {d : ℤ} :
    (∃ r ∈ l ++ l', r.day = d) ↔
      (∃ r ∈ l, r.day = d) ∨ ∃ r ∈ l', r.day = d := by
  simp [List.mem_append, or_and_right, exists_or]

/-- The two merged columns are untouched by extra records whose dates do
not occur on the prediction side of the window. -/
theorem sharedDates_append_of_disjoint (fa fE fp : List SalesRecord)
    (hE : ∀ rec ∈ fE, rec.day ∉ fp.map SalesRecord.day) :
    sharedDates (fa ++ fE) fp = sharedDates fa fp := by
  refine List.eq_of_perm_of_sorted ?_ (sorted_sharedDates _ _)
    (sorted_sharedDates _ _)
  rw [List.perm_ext_iff_of_nodup (nodup_sharedDates _ _)
    (nodup_sharedDates _ _)]
  intro d
  rw [mem_sharedDates, mem_sharedDates, exists_day_append]
  constructor
  · rintro ⟨hfa | ⟨r, hr, rfl⟩, hp⟩
    · exact ⟨hfa, hp⟩
    · obtain ⟨r', hr', h'⟩ := hp
      exact absurd (List.mem_map.mpr ⟨r', hr', h'⟩) (hE r hr)
  · rintro ⟨hfa, hp⟩
    exact ⟨Or.inl hfa, hp⟩

/-- **C2.** The accuracy report is computed over exactly the dates
present in both windowed series: the sample count is the cardinality of
the intersection of the two date sets, MAE is the mean absolute
difference and RMSE the root mean square difference of the daily sums
over the shared dates, and appending records whose dates never occur on
the prediction side leaves the whole report unchanged. -/
theorem accuracy_over_shared_dates (A P : List SalesRecord) (s : ℤ)
    (e? : Option ℤ) :
    (get_prediction_accuracy_metrics A P s e?).total_predictions =
      (((filterRange A s (resolveEnd s e?)).map SalesRecord.day).toFinset ∩
        ((filterRange P s (resolveEnd s e?)).map SalesRecord.day).toFinset).card ∧
    (get_prediction_accuracy_metrics A P s e?).mae =
      ((sharedDates (filterRange A s (resolveEnd s e?))
            (filterRange P s (resolveEnd s e?))).map
          (fun d => |sumOn (filterRange A s (resolveEnd s e?)) d -
            sumOn (filterRange P s (resolveEnd s e?)) d|)).sum /
        ((sharedDates (filterRange A s (resolveEnd s e?))
            (filterRange P s (resolveEnd s e?))).length : ℚ) ∧
    (get_prediction_accuracy_metrics A P s e?).rmse =
      Real.sqrt ((((sharedDates (filterRange A s (resolveEnd s e?))
            (filterRange P s (resolveEnd s e?))).map
          (fun d => (sumOn (filterRange A s (resolveEnd s e?)) d -
            sumOn (filterRange P s (resolveEnd s e?)) d) ^ 2)).sum /
        ((sharedDates (filterRange A s (resolveEnd s e?))
            (filterRange P s (resolveEnd s e?))).length : ℚ) : ℚ)) ∧
    ∀ E : List SalesRecord,
      (∀ rec ∈ E,
        rec.day ∉ (filterRange P s (resolveEnd s e?)).map SalesRecord.day) →
      get_prediction_accuracy_metrics (A ++ E) P s e? =
        get_prediction_accuracy_metrics A P s e? := by
  set fa := filterRange A s (resolveEnd s e?) with hfa
  set fp := filterRange P s (resolveEnd s e?) with hfp
  set ds := sharedDates fa fp with hds
  have hunfold : get_prediction_accuracy_metrics A P s e? =
      metricsFromSeries (ds.map (sumOn fa)) (ds.map (sumOn fp)) := rfl
  have hzip : ((ds.map (sumOn fa)).zip (ds.map (sumOn fp))) =
      ds.map (fun d => (sumOn fa d, sumOn fp d)) := List.zip_map' _ _ _
  refine ⟨?_, ?_, ?_, ?_⟩
  · rw [hunfold]
    have hlen : (metricsFromSeries (ds.map (sumOn fa))
        (ds.map (sumOn fp))).total_predictions = ds.length := by
      unfold metricsFromSeries
      rcases eq_or_ne (ds.map (sumOn fa)) [] with h | h
      · rw [if_pos h]
        simp only [List.map_eq_nil_iff] at h
        simp [h]
      · rw [if_neg h]
        exact List.length_map _ _
    rw [hlen, ← toFinset_sharedDates,
      List.toFinset_card_of_nodup (nodup_sharedDates _ _)]
  · rw [hunfold]
    unfold metricsFromSeries
    rcases eq_or_ne (ds.map (sumOn fa)) [] with h | h
    · rw [if_pos h]
      simp only [List.map_eq_nil_iff] at h
      simp [h]
    · rw [if_neg h]
      dsimp only
      rw [hzip, List.map_map, List.length_map]
      have hfun2 : List.map ((fun q : ℚ × ℚ => ratAbs (q.1 - q.2)) ∘
            fun d => (sumOn fa d, sumOn fp d)) ds =
          List.map (fun d => |sumOn fa d - sumOn fp d|) ds :=
        List.map_congr_left (fun d _ => ratAbs_eq_abs _)
      rw [hfun2]
  · rw [hunfold]
    unfold metricsFromSeries
    rcases eq_or_ne (ds.map (sumOn fa)) [] with h | h
    · rw [if_pos h]
      simp only [List.map_eq_nil_iff] at h
      simp [h]
    · rw [if_neg h]
      dsimp only
      rw [hzip, List.map_map, List.length_map]
      have hfun : List.map ((fun q : ℚ × ℚ => (q.1 - q.2) ^ 2) ∘
            fun d => (sumOn fa d, sumOn fp d)) ds =
          List.map (fun d => (sumOn fa d - sumOn fp d) ^ 2) ds :=
        List.map_congr_left (fun d _ => rfl)
      rw [hfun]
  · intro E hE
    have hfaE : filterRange (A ++ E) s (resolveEnd s e?) =
        fa ++ filterRange E s (resolveEnd s e?) := by
      unfold filterRange
      exact List.filter_append _ _
    have hE' : ∀ rec ∈ filterRange E s (resolveEnd s e?),
        rec.day ∉ fp.map SalesRecord.day := by
      intro rec hrec
      exact hE rec (List.mem_filter.mp hrec).1
    have hds' : sharedDates (fa ++ filterRange E s (resolveEnd s e?)) fp =
        ds := sharedDates_append_of_disjoint _ _ _ hE'
    have hsum : ∀ d ∈ ds,
        sumOn (fa ++ filterRange E s (resolveEnd s e?)) d = sumOn fa d := by
      intro d hd
      rw [sumOn_append]
      have hzero : sumOn (filterRange E s (resolveEnd s e?)) d = 0 := by
        apply sumOn_eq_zero
        intro r hr hrd
        obtain ⟨-, r', hr', h'⟩ := mem_sharedDates.mp hd
        exact hE' r hr (hrd ▸ List.mem_map.mpr ⟨r', hr', h'⟩)
      rw [hzero, add_zero]
    show metricsFromSeries _ _ = metricsFromSeries _ _
    rw [hfaE, hds', List.map_congr_left hsum]

/-- Witness for C2's invariance part: adding an actual-only record (on a
date with no prediction) leaves the accuracy report unchanged. -/
theorem accuracy_over_shared_dates_witness :
    (∀ rec ∈ [(⟨5, 9, 1, 1, "NoPromo", 0, "R", "C", 7⟩ : SalesRecord)],
      rec.day ∉ (filterRange [⟨0, 2, 1, 1, "NoPromo", 0, "R", "C", 6⟩] 0
          (resolveEnd 0 none)).map SalesRecord.day) ∧
    get_prediction_accuracy_metrics
        ([⟨0, 1, 1, 1, "NoPromo", 0, "R", "C", 5⟩] ++
          [⟨5, 9, 1, 1, "NoPromo", 0, "R", "C", 7⟩])
        [⟨0, 2, 1, 1, "NoPromo", 0, "R", "C", 6⟩] 0 none =
      get_prediction_accuracy_metrics [⟨0, 1, 1, 1, "NoPromo", 0, "R", "C", 5⟩]
        [⟨0, 2, 1, 1, "NoPromo", 0, "R", "C", 6⟩] 0 none := by
  have hE : ∀ rec ∈ [(⟨5, 9, 1, 1, "NoPromo", 0, "R", "C", 7⟩ : SalesRecord)],
      rec.day ∉ (filterRange [⟨0, 2, 1, 1, "NoPromo", 0, "R", "C", 6⟩] 0
          (resolveEnd 0 none)).map SalesRecord.day := by
    decide
  exact ⟨hE, (accuracy_over_shared_dates
    [⟨0, 1, 1, 1, "NoPromo", 0, "R", "C", 5⟩]
    [⟨0, 2, 1, 1, "NoPromo", 0, "R", "C", 6⟩] 0 none).2.2.2 _ hE⟩

/-! ## C5: the specification's concrete scenario -/

/-- The actual records of the spec's scenario: amounts 100 and 150 on
2007-01-01 (day key 732677) and 200 on 2007-01-02 (732678). -/
def scenarioActuals : List SalesRecord :=
  [⟨732677, 100, 1, 1, "NoPromo", 0, "R", "C", 1⟩,
   ⟨732677, 150, 1, 2, "Promo", 0, "R", "C", 2⟩,
   ⟨732678, 200, 1, 1, "NoPromo", 0, "R", "C", 3⟩]

/-- The predicted records of the spec's scenario: 240 on 2007-01-01
(732677) and 50 on 2007-01-03 (732679). -/
def scenarioPredictions : List SalesRecord :=
  [⟨732677, 240, 1, 1, "NoPromo", 0, "R", "C", 4⟩,
   ⟨732679, 50, 1, 1, "NoPromo", 0, "R", "C", 5⟩]

/-- Counterexample to C5's accuracy figures: on the scenario input the
source's accuracy metrics are computed over the single date present in
**both** series (2007-01-01 only — 2007-01-02 has no prediction), so the
report has `sampleCount = 1`, `MAE = 10` and `RMSE = √100`, not
`sampleCount = 2`, `MAE = 105`, `RMSE = √20050`. -/
theorem scenario_accuracy_counterexample :
    (get_prediction_accuracy_metrics scenarioActuals scenarioPredictions
        732677 none).total_predictions = 1 ∧
    (get_prediction_accuracy_metrics scenarioActuals scenarioPredictions
        732677 none).mae = 10 ∧
    (1 : ℕ) ≠ 2 ∧ (10 : ℚ) ≠ 105 := by
  refine ⟨?_, ?_, by decide, by norm_num⟩
  · simp +decide [get_prediction_accuracy_metrics, metricsFromSeries,
      sharedDates, salesDates, scenarioActuals, scenarioPredictions,
      filterRange, inRange, resolveEnd, List.insertionSort,
      List.orderedInsert]
  · simp +decide [get_prediction_accuracy_metrics, metricsFromSeries,
      sharedDates, salesDates, scenarioActuals, scenarioPredictions,
      filterRange, inRange, resolveEnd, sumOn, ratAbs,
      List.insertionSort, List.orderedInsert, List.zip]
    norm_num

/-- **C5 (amended).** On the spec's scenario the aligned comparison rows
are exactly as the claim lists them — `(250 vs 240, absErr 10, pctErr 4)`,
`(200 vs 0, absErr 200, pctErr 100)`, `(0 vs 50, absErr 50, pctErr
undefined)` — but the accuracy evaluation runs over the dates present in
both series, which here is 2007-01-01 alone (2007-01-02 has no predicted
record), giving `sampleCount = 1`, `MAE = 10` and `RMSE = √100 = 10`. -/
theorem scenario_alignment_and_accuracy :
    rdOf ⟨2007, 1, 1⟩ = 732677 ∧ rdOf ⟨2007, 1, 2⟩ = 732678 ∧
    rdOf ⟨2007, 1, 3⟩ = 732679 ∧
    get_actuals_vs_predictions scenarioActuals scenarioPredictions
        732677 none =
      [⟨732677, 250, 2, 240, 1, 10, some 4⟩,
       ⟨732678, 200, 1, 0, 0, 200, some 100⟩,
       ⟨732679, 0, 0, 50, 1, 50, none⟩] ∧
    (get_prediction_accuracy_metrics scenarioActuals scenarioPredictions
        732677 none).total_predictions = 1 ∧
    (get_prediction_accuracy_metrics scenarioActuals scenarioPredictions
        732677 none).mae = 10 ∧
    (get_prediction_accuracy_metrics scenarioActuals scenarioPredictions
        732677 none).rmse = Real.sqrt 100 := by
  refine ⟨by decide, by decide, by decide, ?_, ?_, ?_, ?_⟩
  · simp +decide [get_actuals_vs_predictions, alignDaily, filterRange,
      inRange, resolveEnd, sumOn, countOn, percentageError, ratAbs,
      scenarioActuals, scenarioPredictions,
      List.insertionSort, List.orderedInsert]
    norm_num
  · simp +decide [get_prediction_accuracy_metrics, metricsFromSeries,
      sharedDates, salesDates, scenarioActuals, scenarioPredictions,
      filterRange, inRange, resolveEnd, List.insertionSort,
      List.orderedInsert]
  · simp +decide [get_prediction_accuracy_metrics, metricsFromSeries,
      sharedDates, salesDates, scenarioActuals, scenarioPredictions,
      filterRange, inRange, resolveEnd, sumOn, ratAbs,
      List.insertionSort, List.orderedInsert, List.zip]
    norm_num
  · simp +decide [get_prediction_accuracy_metrics, metricsFromSeries,
      sharedDates, salesDates, scenarioActuals, scenarioPredictions,
      filterRange, inRange, resolveEnd, sumOn, List.insertionSort,
      List.orderedInsert, List.zip]
    norm_num

/-! ## C4: MAPE is not restricted to positive actuals -/

/-- Counterexample to C4: with no shared dates there is in particular no
row with a strictly positive actual, the spec's MAPE is the undefined
marker, yet the source reports the plain number `0` for `mape` (from its
explicit empty-merge dictionary). -/
theorem mape_counterexample :
    sharedPairs [⟨0, 100, 1, 1, "NoPromo", 0, "R", "C", 1⟩]
        [⟨5, 50, 1, 1, "NoPromo", 0, "R", "C", 2⟩] 0 none = [] ∧
    mapeSpec (sharedPairs [⟨0, 100, 1, 1, "NoPromo", 0, "R", "C", 1⟩]
        [⟨5, 50, 1, 1, "NoPromo", 0, "R", "C", 2⟩] 0 none) = none ∧
    (get_prediction_accuracy_metrics [⟨0, 100, 1, 1, "NoPromo", 0, "R", "C", 1⟩]
        [⟨5, 50, 1, 1, "NoPromo", 0, "R", "C", 2⟩] 0 none).mape = 0 := by
  have hempty : sharedPairs [⟨0, 100, 1, 1, "NoPromo", 0, "R", "C", 1⟩]
      [⟨5, 50, 1, 1, "NoPromo", 0, "R", "C", 2⟩] 0 none = [] := by
    simp +decide [sharedPairs, sharedDates, salesDates, filterRange,
      inRange, resolveEnd, List.insertionSort, List.orderedInsert]
  refine ⟨hempty, ?_, ?_⟩
  · rw [hempty]
    simp [mapeSpec]
  · simp +decide [get_prediction_accuracy_metrics, metricsFromSeries,
      sharedDates, salesDates, filterRange, inRange, resolveEnd,
      List.insertionSort, List.orderedInsert]

/-- **C4 (amended).** The source computes MAPE over **all** shared-date
rows, with no restriction to strictly positive actuals: whenever every
shared actual total is positive it coincides with the spec's restricted
mean, but when there are no shared dates it is reported as the number
`0`, not an undefined marker (and a shared row with zero actual feeds a
division by zero into the mean instead of being excluded). -/
theorem mape_unrestricted (A P : List SalesRecord) (s : ℤ)
    (e? : Option ℤ) :
    (sharedPairs A P s e? = [] →
      (get_prediction_accuracy_metrics A P s e?).mape = 0) ∧
    ((∀ q ∈ sharedPairs A P s e?, 0 < q.1) → sharedPairs A P s e? ≠ [] →
      mapeSpec (sharedPairs A P s e?) =
        some ((get_prediction_accuracy_metrics A P s e?).mape)) := by
  have hpairs : sharedPairs A P s e? =
      (sharedDates (filterRange A s (resolveEnd s e?))
          (filterRange P s (resolveEnd s e?))).map
        (fun d => (sumOn (filterRange A s (resolveEnd s e?)) d,
          sumOn (filterRange P s (resolveEnd s e?)) d)) := rfl
  have hunfold : get_prediction_accuracy_metrics A P s e? =
      metricsFromSeries
        ((sharedDates (filterRange A s (resolveEnd s e?))
            (filterRange P s (resolveEnd s e?))).map
          (sumOn (filterRange A s (resolveEnd s e?))))
        ((sharedDates (filterRange A s (resolveEnd s e?))
            (filterRange P s (resolveEnd s e?))).map
          (sumOn (filterRange P s (resolveEnd s e?)))) := rfl
  constructor
  · intro h
    rw [hpairs, List.map_eq_nil_iff] at h
    rw [hunfold]
    unfold metricsFromSeries
    rw [if_pos (by rw [h]; rfl)]
  · intro hpos hne
    have hds : sharedDates (filterRange A s (resolveEnd s e?))
        (filterRange P s (resolveEnd s e?)) ≠ [] := by
      intro h
      apply hne
      rw [hpairs, h]
      rfl
    have hmapne : (sharedDates (filterRange A s (resolveEnd s e?))
        (filterRange P s (resolveEnd s e?))).map
          (sumOn (filterRange A s (resolveEnd s e?))) ≠ [] := by
      simpa [List.map_eq_nil_iff] using hds
    rw [hunfold]
    unfold metricsFromSeries
    rw [if_neg hmapne]
    dsimp only
    rw [mapeSpec]
    have hfilter : (sharedPairs A P s e?).filter (fun r => 0 < r.1) =
        sharedPairs A P s e? := List.filter_eq_self.mpr
      (fun q hq => by simpa using hpos q hq)
    rw [hfilter, if_neg hne]
    rw [hpairs, List.zip_map', List.map_map]
    simp only [List.length_map]

/-- Witness for C4's amended statement: one shared date with positive
actual, where the source MAPE agrees with the spec's restricted mean,
plus the empty-shared case reporting `0`. -/
theorem mape_unrestricted_witness :
    ((∀ q ∈ sharedPairs [⟨0, 100, 1, 1, "NoPromo", 0, "R", "C", 1⟩]
        [⟨0, 80, 1, 1, "NoPromo", 0, "R", "C", 2⟩] 0 none, 0 < q.1) ∧
      sharedPairs [⟨0, 100, 1, 1, "NoPromo", 0, "R", "C", 1⟩]
        [⟨0, 80, 1, 1, "NoPromo", 0, "R", "C", 2⟩] 0 none ≠ [] ∧
      mapeSpec (sharedPairs [⟨0, 100, 1, 1, "NoPromo", 0, "R", "C", 1⟩]
          [⟨0, 80, 1, 1, "NoPromo", 0, "R", "C", 2⟩] 0 none) =
        some ((get_prediction_accuracy_metrics
            [⟨0, 100, 1, 1, "NoPromo", 0, "R", "C", 1⟩]
            [⟨0, 80, 1, 1, "NoPromo", 0, "R", "C", 2⟩] 0 none).mape)) := by
  have h1 : ∀ q ∈ sharedPairs [⟨0, 100, 1, 1, "NoPromo", 0, "R", "C", 1⟩]
      [⟨0, 80, 1, 1, "NoPromo", 0, "R", "C", 2⟩] 0 none, 0 < q.1 := by
    simp +decide [sharedPairs, sharedDates, salesDates, filterRange,
      inRange, resolveEnd, sumOn, List.insertionSort, List.orderedInsert]
  have h2 : sharedPairs [⟨0, 100, 1, 1, "NoPromo", 0, "R", "C", 1⟩]
      [⟨0, 80, 1, 1, "NoPromo", 0, "R", "C", 2⟩] 0 none ≠ [] := by
    simp +decide [sharedPairs, sharedDates, salesDates, filterRange,
      inRange, resolveEnd, List.insertionSort, List.orderedInsert]
  exact ⟨h1, h2, (mape_unrestricted
    [⟨0, 100, 1, 1, "NoPromo", 0, "R", "C", 1⟩]
    [⟨0, 80, 1, 1, "NoPromo", 0, "R", "C", 2⟩] 0 none).2 h1 h2⟩

/-! ## C6: correlation of a constant series is undefined -/

/-- A nonempty constant list has zero sum of squared deviations around
its mean. -/
theorem ss_eq_zero_of_const (l : List ℚ) (n : ℚ) (hl : l ≠ [])
    (hn : n = (l.length : ℚ)) (hc : ∀ x ∈ l, ∀ y ∈ l, x = y) :
    (l.map (fun x => (x - l.sum / n) ^ 2)).sum = 0 := by
  obtain ⟨c, l', rfl⟩ := List.exists_cons_of_ne_nil hl
  have hx : ∀ x ∈ c :: l', x = c := fun x hx =>
    hc x hx c (List.mem_cons_self c l')
  have hsum : (c :: l').sum = ((c :: l').length : ℚ) * c := by
    rw [List.sum_eq_card_nsmul _ c hx, nsmul_eq_mul]
  have hlen : ((c :: l').length : ℚ) ≠ 0 := Nat.cast_ne_zero.mpr (by simp)
  have hbar : (c :: l').sum / n = c := by
    rw [hsum, hn]
    exact mul_div_cancel_left₀ c hlen
  apply List.sum_eq_zero
  intro x hx'
  obtain ⟨y, hy, rfl⟩ := List.mem_map.mp hx'
  rw [hbar, hx y hy, sub_self]
  ring

/-- **C6.** When the shared-date merge is nonempty and either merged
value column is constant (zero variance), the reported correlation is
the explicit undefined marker (`pandas.Series.corr` returns `NaN`,
modelled as `none`) and in particular is never the number `0`. -/
theorem correlation_constant_undefined (A P : List SalesRecord) (s : ℤ)
    (e? : Option ℤ)
    (hne : sharedDates (filterRange A s (resolveEnd s e?))
      (filterRange P s (resolveEnd s e?)) ≠ [])
    (hconst :
      (∀ x ∈ (sharedDates (filterRange A s (resolveEnd s e?))
          (filterRange P s (resolveEnd s e?))).map
            (sumOn (filterRange A s (resolveEnd s e?))),
        ∀ y ∈ (sharedDates (filterRange A s (resolveEnd s e?))
          (filterRange P s (resolveEnd s e?))).map
            (sumOn (filterRange A s (resolveEnd s e?))), x = y) ∨
      (∀ x ∈ (sharedDates (filterRange A s (resolveEnd s e?))
          (filterRange P s (resolveEnd s e?))).map
            (sumOn (filterRange P s (resolveEnd s e?))),
        ∀ y ∈ (sharedDates (filterRange A s (resolveEnd s e?))
          (filterRange P s (resolveEnd s e?))).map
            (sumOn (filterRange P s (resolveEnd s e?))), x = y)) :
    (get_prediction_accuracy_metrics A P s e?).correlation = none := by
  have hunfold : get_prediction_accuracy_metrics A P s e? =
      metricsFromSeries
        ((sharedDates (filterRange A s (resolveEnd s e?))
            (filterRange P s (resolveEnd s e?))).map
          (sumOn (filterRange A s (resolveEnd s e?))))
        ((sharedDates (filterRange A s (resolveEnd s e?))
            (filterRange P s (resolveEnd s e?))).map
          (sumOn (filterRange P s (resolveEnd s e?)))) := rfl
  have hane : (sharedDates (filterRange A s (resolveEnd s e?))
      (filterRange P s (resolveEnd s e?))).map
        (sumOn (filterRange A s (resolveEnd s e?))) ≠ [] := by
    simpa [List.map_eq_nil_iff] using hne
  have hpne : (sharedDates (filterRange A s (resolveEnd s e?))
      (filterRange P s (resolveEnd s e?))).map
        (sumOn (filterRange P s (resolveEnd s e?))) ≠ [] := by
    simpa [List.map_eq_nil_iff] using hne
  have hlen : ((sharedDates (filterRange A s (resolveEnd s e?))
      (filterRange P s (resolveEnd s e?))).map
        (sumOn (filterRange A s (resolveEnd s e?)))).length =
      ((sharedDates (filterRange A s (resolveEnd s e?))
        (filterRange P s (resolveEnd s e?))).map
          (sumOn (filterRange P s (resolveEnd s e?)))).length := by
    rw [List.length_map, List.length_map]
  rw [hunfold]
  unfold metricsFromSeries
  rw [if_neg hane]
  dsimp only
  rcases hconst with h | h
  · rw [if_pos (Or.inl (ss_eq_zero_of_const _ _ hane rfl h))]
  · rw [if_pos (Or.inr (ss_eq_zero_of_const _ _ hpne (by rw [hlen]) h))]

/-- Witness for C6: a single shared date makes both value columns
constant, and the reported correlation is `none`. -/
theorem correlation_constant_undefined_witness :
    sharedDates (filterRange [⟨0, 5, 1, 1, "NoPromo", 0, "R", "C", 1⟩] 0
        (resolveEnd 0 none))
      (filterRange [⟨0, 7, 1, 1, "NoPromo", 0, "R", "C", 2⟩] 0
        (resolveEnd 0 none)) ≠ [] ∧
    (get_prediction_accuracy_metrics [⟨0, 5, 1, 1, "NoPromo", 0, "R", "C", 1⟩]
        [⟨0, 7, 1, 1, "NoPromo", 0, "R", "C", 2⟩] 0 none).correlation = none := by
  have hne : sharedDates (filterRange [⟨0, 5, 1, 1, "NoPromo", 0, "R", "C", 1⟩] 0
      (resolveEnd 0 none))
      (filterRange [⟨0, 7, 1, 1, "NoPromo", 0, "R", "C", 2⟩] 0
        (resolveEnd 0 none)) ≠ [] := by
    simp +decide [sharedDates, salesDates, filterRange, inRange,
      resolveEnd, List.insertionSort, List.orderedInsert]
  refine ⟨hne, correlation_constant_undefined _ _ _ _ hne (Or.inl ?_)⟩
  simp +decide [sharedDates, salesDates, filterRange, inRange,
    resolveEnd, sumOn, List.insertionSort, List.orderedInsert]

/-! ## C7: empty promotion partition is not signalled -/

/-- Counterexample to C7: on a window whose records are all
non-promoted, the spec prescribes a distinct `InsufficientPartitionData`
signal, but `get_promotion_impact` returns an ordinary single-row
result for the nonempty partition (`GROUP BY` silently drops the empty
one), with no distinct insufficient-data condition of any kind. -/
theorem promotion_impact_counterexample :
    promotionImpactSpec [⟨0, 10, 1, 1, "NoPromo", 0, "R", "C", 1⟩,
        ⟨1, 20, 1, 1, "NoPromo", 0, "R", "C", 2⟩] 0 30 =
      PromotionImpactOutcome.insufficientPartitionData ∧
    get_promotion_impact [⟨0, 10, 1, 1, "NoPromo", 0, "R", "C", 1⟩,
        ⟨1, 20, 1, 1, "NoPromo", 0, "R", "C", 2⟩] 0 30 =
      [⟨false, 30, 15, 2, 1, 2⟩] := by
  constructor
  · simp +decide [promotionImpactSpec, promoPartition, inRange]
  · simp +decide [get_promotion_impact, promoPartition, promoRowOf,
      inRange]
    norm_num

/-- **C7 (amended).** When the promoted partition of the windowed
records is empty, `get_promotion_impact` emits no distinct
insufficient-data signal: it returns the plain aggregate row of the
non-promoted partition when that one is nonempty, and the empty list
when both are empty.  (The separate `calculate_promotion_impact` of
`utils/sales_calculations.py` likewise computes per-promotion ROI with
no empty-partition or zero-discount guard.) -/
theorem promotion_impact_empty_partition (rs : List SalesRecord)
    (s e : ℤ)
    (h : promoPartition (rs.filter (inRange s e)) true = []) :
    get_promotion_impact rs s e =
      if promoPartition (rs.filter (inRange s e)) false = [] then []
      else [promoRowOf (rs.filter (inRange s e)) false] := by
  unfold get_promotion_impact
  rcases eq_or_ne (promoPartition (rs.filter (inRange s e)) false) []
    with hf | hf
  · rw [if_pos hf]
    simp [List.filter, hf, h]
  · rw [if_neg hf]
    simp [List.filter, hf, h]

/-- Witness for C7's amended statement, at the counterexample's input:
the promoted partition is empty and the result is the single
non-promoted row. -/
theorem promotion_impact_empty_partition_witness :
    promoPartition ([⟨0, 10, 1, 1, "NoPromo", 0, "R", "C", 1⟩,
        ⟨1, 20, 1, 1, "NoPromo", 0, "R", "C", 2⟩].filter (inRange 0 30))
      true = [] ∧
    get_promotion_impact [⟨0, 10, 1, 1, "NoPromo", 0, "R", "C", 1⟩,
        ⟨1, 20, 1, 1, "NoPromo", 0, "R", "C", 2⟩] 0 30 =
      if promoPartition ([⟨0, 10, 1, 1, "NoPromo", 0, "R", "C", 1⟩,
          ⟨1, 20, 1, 1, "NoPromo", 0, "R", "C", 2⟩].filter (inRange 0 30))
        false = [] then []
      else [promoRowOf ([⟨0, 10, 1, 1, "NoPromo", 0, "R", "C", 1⟩,
        ⟨1, 20, 1, 1, "NoPromo", 0, "R", "C", 2⟩].filter (inRange 0 30))
          false] := by
  have h : promoPartition ([⟨0, 10, 1, 1, "NoPromo", 0, "R", "C", 1⟩,
      ⟨1, 20, 1, 1, "NoPromo", 0, "R", "C", 2⟩].filter (inRange 0 30))
      true = [] := by decide
  exact ⟨h, promotion_impact_empty_partition _ 0 30 h⟩

/-! ## C8: week selection does not back-propagate the week-start month -/

/-- Counterexample to C8: a dataset with a single record on 2007-02-01
(ISO week 5, which starts on Monday 2007-01-29).  Week 5 is selectable,
and the Geography page's daily-view `on_week_change` forces the month to
February — the month of the first matching record — not to January, the
month containing the week's start date. -/
theorem week_month_backprop_counterexample :
    isoWeekNum ⟨2007, 2, 1⟩ = 5 ∧
    (5 : ℤ) ∈ get_available_weeks [⟨2007, 2, 1⟩] none none ∧
    isoWeekStartDate 2007 5 = ⟨2007, 1, 29⟩ ∧
    (isoWeekStartDate 2007 5).month = 1 ∧
    (on_week_change [⟨2007, 2, 1⟩] ⟨none, none⟩ (some 5)).month = some 2 ∧
    (some 2 : Option ℤ) ≠ some 1 ∧
    (dailyViewSelectWeek ⟨some 3, none⟩ (some 5)).month = some 3 := by
  refine ⟨by decide, by decide, by decide, by decide, by decide,
    by decide, by decide⟩

/-- **C8 (amended).** The only daily-view week→month back-propagation in
the source is the Geography page's: selecting a week overrides any prior
month selection with the month of the **first** record of the dataset
whose ISO week number matches (not the month of the week's start date),
and resets it to "All Months" when no record matches; the
Actuals-vs-Predictions page's daily view (the cited lines) performs no
back-propagation at all — its week selection leaves the month
untouched. -/
theorem week_month_backprop (dates : List Date) (st st' : FilterState)
    (w : ℤ) (dt : Date)
    (hfirst : (dates.filter (fun x => isoWeekNum x = w)).head? = some dt) :
    (on_week_change dates st (some w)).month = some dt.month ∧
    on_week_change dates st (some w) = on_week_change dates st' (some w) ∧
    (∀ st₀ : FilterState, ∀ w? : Option ℤ,
      (dailyViewSelectWeek st₀ w?).month = st₀.month) := by
  refine ⟨?_, rfl, fun st₀ w? => rfl⟩
  show get_month_for_week dates (some w) = some dt.month
  unfold get_month_for_week
  dsimp only
  rw [hfirst]

/-- Witness for C8's amended statement at the counterexample's dataset:
the forced month is that of the first (and only) matching record. -/
theorem week_month_backprop_witness :
    ([(⟨2007, 2, 1⟩ : Date)].filter (fun x => isoWeekNum x = 5)).head? =
      some ⟨2007, 2, 1⟩ ∧
    (on_week_change [⟨2007, 2, 1⟩] ⟨none, none⟩ (some 5)).month =
      some (⟨2007, 2, 1⟩ : Date).month := by
  have h : ([(⟨2007, 2, 1⟩ : Date)].filter
      (fun x => isoWeekNum x = 5)).head? = some ⟨2007, 2, 1⟩ := by decide
  exact ⟨h, (week_month_backprop [⟨2007, 2, 1⟩] ⟨none, none⟩
    ⟨some 9, some 4⟩ 5 ⟨2007, 2, 1⟩ h).1⟩

/-! ## C9: week buckets carry the calendar year, not the ISO week-year -/

/-- Counterexample to C9: 2007-12-31 belongs to ISO week 1 of ISO
week-year 2008, but `load_geography_data` buckets it under its calendar
year — the bucket is `(year 2007, week 1)`, not year 2008. -/
theorem week_bucket_year_counterexample :
    validDate ⟨2007, 12, 31⟩ ∧
    isoWeekYear ⟨2007, 12, 31⟩ = 2008 ∧
    isoWeekNum ⟨2007, 12, 31⟩ = 1 ∧
    (geoBucketOf ⟨2007, 12, 31⟩).year = 2007 ∧
    (2007 : ℤ) ≠ 2008 := by
  refine ⟨by decide, by decide, by decide, by decide, by decide⟩

/-- **C9 (amended).** For every date, the week bucket's year component
is the **calendar** year and its week component the ISO week number, so
a boundary date whose ISO week-year differs from its calendar year is
bucketed under the hybrid `(calendar year, adjacent-year ISO week)` key
rather than under the ISO week-year; and the filter resolver's week
lists pair a calendar-year/month filter with ISO week numbers: a week
number is listed exactly when some record of that calendar year and
month has it. -/
theorem week_bucket_uses_calendar_year (dt : Date) (dates : List Date)
    (y m w : ℤ)
    (hboundary : isoWeekYear dt ≠ dt.year) :
    (geoBucketOf dt).year = dt.year ∧
    (geoBucketOf dt).week = isoWeekNum dt ∧
    (geoBucketOf dt).year ≠ isoWeekYear dt ∧
    (w ∈ get_available_weeks dates (some y) (some m) ↔
      ∃ x ∈ dates, x.year = y ∧ x.month = m ∧ isoWeekNum x = w) := by
  refine ⟨rfl, rfl, fun h => hboundary (Eq.symm h), ?_⟩
  unfold get_available_weeks
  rw [List.mem_insertionSort, List.mem_dedup, List.mem_map]
  constructor
  · rintro ⟨x, hx, rfl⟩
    rw [List.mem_filter] at hx
    obtain ⟨hx1, hx2⟩ := hx
    rw [List.mem_filter] at hx1
    exact ⟨x, hx1.1, by simpa using hx1.2, by simpa using hx2, rfl⟩
  · rintro ⟨x, hx, hy, hm, rfl⟩
    refine ⟨x, ?_, rfl⟩
    rw [List.mem_filter, List.mem_filter]
    exact ⟨⟨hx, by simpa using hy⟩, by simpa using hm⟩

/-- Witness for C9's amended statement at the boundary date 2007-12-31
(ISO week-year 2008): the bucket keeps calendar year 2007, and week 1
is listed for (year 2007, month 12) because of that record. -/
theorem week_bucket_uses_calendar_year_witness :
    isoWeekYear ⟨2007, 12, 31⟩ ≠ (2007 : ℤ) ∧
    (geoBucketOf ⟨2007, 12, 31⟩).year = 2007 ∧
    (geoBucketOf ⟨2007, 12, 31⟩).year ≠ isoWeekYear ⟨2007, 12, 31⟩ ∧
    ((1 : ℤ) ∈ get_available_weeks [⟨2007, 12, 31⟩] (some 2007) (some 12) ↔
      ∃ x ∈ [(⟨2007, 12, 31⟩ : Date)], x.year = 2007 ∧ x.month = 12 ∧
        isoWeekNum x = 1) := by
  have hb : isoWeekYear ⟨2007, 12, 31⟩ ≠ (2007 : ℤ) := by decide
  have h := week_bucket_uses_calendar_year ⟨2007, 12, 31⟩
    [⟨2007, 12, 31⟩] 2007 12 1 hb
  exact ⟨hb, h.1, h.2.2.1, h.2.2.2⟩

/-! ## C10: the default fetch window is start + 30 days inclusive -/

/-- **C10.** Every fetch-style daily query invoked without an end date
behaves exactly as if the end date were `start_date + 30` days: the five
query functions return identical results under `none` and
`some (start + 30)`, the window mask admits precisely the days
`start ≤ d ≤ start + 30`, and that window contains 31 days. -/
theorem default_window (rs A P : List SalesRecord) (s : ℤ) :
    get_daily_sales rs s none = get_daily_sales rs s (some (s + 30)) ∧
    get_daily_predictions rs s none =
      get_daily_predictions rs s (some (s + 30)) ∧
    get_actuals_vs_predictions A P s none =
      get_actuals_vs_predictions A P s (some (s + 30)) ∧
    get_prediction_accuracy_metrics A P s none =
      get_prediction_accuracy_metrics A P s (some (s + 30)) ∧
    get_sales_by_region rs s none = get_sales_by_region rs s (some (s + 30)) ∧
    (∀ r : SalesRecord,
      inRange s (resolveEnd s none) r = true ↔ s ≤ r.day ∧ r.day ≤ s + 30) ∧
    (Finset.Icc s (s + 30)).card = 31 := by
  refine ⟨rfl, rfl, rfl, rfl, rfl, ?_, ?_⟩
  · intro r
    simp [inRange, resolveEnd]
  · rw [Int.card_Icc]
    omega

/-!
## Sanity checks of the calendar embedding

Known ISO-calendar anchor points, validating the embedded
`date.isocalendar()` arithmetic.
-/

example : percentageError 0 5 = none := by norm_num [percentageError]
example : percentageError 250 240 = some 4 := by norm_num [percentageError, ratAbs]
example : isoWeekOf ⟨2007, 12, 31⟩ = (2008, 1) := by decide
example : isoWeekOf ⟨2007, 1, 1⟩ = (2007, 1) := by decide
example : isoWeekOf ⟨2010, 1, 1⟩ = (2009, 53) := by decide
example : isoWeekOf ⟨2005, 1, 1⟩ = (2004, 53) := by decide
example : isoWeekOf ⟨2007, 2, 1⟩ = (2007, 5) := by decide
example : isoWeekday ⟨2007, 1, 1⟩ = 1 := by decide
example : isoWeekStartDate 2007 5 = ⟨2007, 1, 29⟩ := by decide
example : isoWeekStartDate 2009 53 = ⟨2009, 12, 28⟩ := by decide
